import Mathlib

set_option maxHeartbeats 1000000

/-- One vector shape record as stored in a label file: a label, a shape type
string, an ordered point list and an optional group id (python: the dict with
keys label, shape_type, points, group_id). -/
structure Shape where
  label : String
  shape_type : String
  points : List (ℚ × ℚ)
  group_id : Option Int
deriving DecidableEq

/-- One image of the export scope, as handed over by the external GUI/IO
collaborator: decoded pixel-array dimensions (height, width, depth), the file
base name, and the stored shape list of its label file. -/
structure Img where
  h : Nat
  w : Nat
  d : Nat
  base : String
  shapes : List Shape
deriving DecidableEq

/-- The seed of the class mapping: python literal
classes = \x7b"__ignore__":-1, "_background_":0\x7d, an insertion-ordered dict,
modelled as an association list. -/
def seedClasses : List (String × Int) := [("__ignore__", -1), ("_background_", 0)]

/-- One step of the registry build loop (app.py 2254-2257, 2216-2219,
2012-2015): if class_name is not among the current keys plus the two seed
names, append it with id len(classes) - 1. -/
def addClass (cs : List (String × Int)) (s : Shape) : List (String × Int) :=
  if (cs.map Prod.fst ++ ["__ignore__", "_background_"]).contains s.label then cs
  else cs ++ [(s.label, (cs.length : Int) - 1)]

/-- The Class Registry build: the fold of addClass over the dataset annotation
list, starting from the seeded dict. -/
def buildClasses (annots : List Shape) : List (String × Int) :=
  annots.foldl addClass seedClasses

/-- getAllAnnotations (app.py 1537-1556): the concatenation of the per-image
shape lists in image-list order (annotations.extend per image). -/
def getAllAnns (imgs : List Img) : List Shape :=
  imgs.foldl (fun acc img => acc ++ img.shapes) []

/-- classes[class_name] lookup on the association list (python dict read;
the key is always present on the paths exercised, 0 is a dummy default). -/
def lookupClass (cs : List (String × Int)) (lbl : String) : Int :=
  match cs.find? (fun p => p.1 == lbl) with
  | some p => p.2
  | none => 0

/-- The rectangle shape of the synthetic round-trip scenario: label car,
corners (10,10) and (50,50). -/
def carShape : Shape := ⟨"car", "rectangle", [(10, 10), (50, 50)], none⟩

/-- Inclusive axis-aligned box fill of a rectangle given by two corner points,
normalized per axis. -/
def rectCovers (p q : ℚ × ℚ) (x y : ℚ) : Bool :=
  decide (min p.1 q.1 ≤ x) && decide (x ≤ max p.1 q.1) &&
  decide (min p.2 q.2 ≤ y) && decide (y ≤ max p.2 q.2)

/-- Disk fill of a circle given by a center and a radius point: squared
distance of the pixel center to the center at most the squared radius. -/
def circleCovers (c r : ℚ × ℚ) (x y : ℚ) : Bool :=
  decide ((x - c.1) ^ 2 + (y - c.2) ^ 2 ≤ (r.1 - c.1) ^ 2 + (r.2 - c.2) ^ 2)

/-- Squared distance from a point to the segment p-q, via the clamped
orthogonal projection parameter. -/
def segDist2 (p q : ℚ × ℚ) (x y : ℚ) : ℚ :=
  let dx := q.1 - p.1
  let dy := q.2 - p.2
  let len2 := dx ^ 2 + dy ^ 2
  let t0 := ((x - p.1) * dx + (y - p.2) * dy) / len2
  let t := max 0 (min 1 t0)
  (x - (p.1 + t * dx)) ^ 2 + (y - (p.2 + t * dy)) ^ 2

/-- One-pixel-wide trace of a segment: pixel centers within half a pixel of
the segment. -/
def lineCovers (p q : ℚ × ℚ) (x y : ℚ) : Bool :=
  decide (segDist2 p q x y ≤ 1 / 4)

/-- The edges of the closed ring through the given points: each point paired
with its cyclic successor. -/
def ringEdges (pts : List (ℚ × ℚ)) : List ((ℚ × ℚ) × (ℚ × ℚ)) :=
  pts.zip (pts.drop 1 ++ pts.take 1)

/-- Even-odd scan-line fill: a pixel center is inside when a horizontal ray to
the left crosses an odd number of ring edges. -/
def polyCovers (pts : List (ℚ × ℚ)) (x y : ℚ) : Bool :=
  decide
    (((ringEdges pts).countP (fun e =>
        ((decide (e.1.2 ≤ y) && decide (y < e.2.2)) ||
         (decide (e.2.2 ≤ y) && decide (y < e.1.2))) &&
        decide (x < e.1.1 + (y - e.1.2) * (e.2.1 - e.1.1) / (e.2.2 - e.1.2)))) % 2 = 1)

/-- Modelled from the spec: utils.shape_to_mask of the labelme.utils package,
which is not under src/.  Section 4.2 of the specification: rectangle fills
the inclusive normalized box, circle fills the disk of the radius given by
the second point, point yields a single pixel, line yields a one-pixel-wide
traced segment, polygon and linestrip (and any other shape type, the python
default) use best-effort even-odd scan-line fill of the closed ring; the mask
has the image size, so pixels outside the image bounds are never set. -/
def shape_to_mask (h w : Nat) (pts : List (ℚ × ℚ)) (ty : String) :
    Nat → Nat → Bool := fun py px =>
  decide (py < h) && decide (px < w) &&
  (if ty == "rectangle" then
    match pts with
    | [p, q] => rectCovers p q (px : ℚ) (py : ℚ)
    | _ => false
  else if ty == "circle" then
    match pts with
    | [c, r] => circleCovers c r (px : ℚ) (py : ℚ)
    | _ => false
  else if ty == "point" then
    match pts with
    | [p] => decide ((px : ℚ) = p.1) && decide ((py : ℚ) = p.2)
    | _ => false
  else if ty == "line" then
    match pts with
    | [p, q] => lineCovers p q (px : ℚ) (py : ℚ)
    | _ => false
  else polyCovers pts (px : ℚ) (py : ℚ))

/-- An instance key: the stored group id when present, otherwise a key fresh
for that one shape in the current run (python: uuid.uuid1(), modelled by the
position of the shape in the image shape list). -/
inductive IKeyT where
  | gid (g : Int)
  | fresh (i : Nat)
deriving DecidableEq, BEq

/-- The instance of a shape: its label paired with its instance key
(app.py 2329-2332). -/
def instKey (i : Nat) (s : Shape) : String × IKeyT :=
  (s.label, match s.group_id with | some g => IKeyT.gid g | none => IKeyT.fresh i)

/-- A boolean mask over pixel coordinates (row, column). -/
def Msk : Type := Nat → Nat → Bool

/-- Insertion-ordered dict update for the masks dict (app.py 2334-2337): if
the instance is present, OR the new mask onto its entry in place, otherwise
append the instance with the new mask. -/
def mergeMask : List ((String × IKeyT) × Msk) → (String × IKeyT) → Msk →
    List ((String × IKeyT) × Msk)
  | [], k, msk => [(k, msk)]
  | p :: rest, k, msk =>
    if p.1 = k then (p.1, fun y x => p.2 y x || msk y x) :: rest
    else p :: mergeMask rest k msk

/-- Dict read of a mask, false outside every entry. -/
def maskAt : List ((String × IKeyT) × Msk) → (String × IKeyT) → Nat → Nat → Bool
  | [], _, _, _ => false
  | p :: rest, k, y, x => if p.1 = k then p.2 y x else maskAt rest k y x

/-- The masks loop of onExportCOCO over the enumerated shape list: each shape
is rasterized and merged into the entry of its instance. -/
def cocoAggAux (h w : Nat) : List (Nat × Shape) → List ((String × IKeyT) × Msk) →
    List ((String × IKeyT) × Msk)
  | [], m => m
  | (i, s) :: rest, m =>
    cocoAggAux h w rest (mergeMask m (instKey i s) (shape_to_mask h w s.points s.shape_type))

/-- The per-image instance masks dict built by onExportCOCO (app.py
2318-2337). -/
def cocoAggregate (h w : Nat) (shapes : List Shape) : List ((String × IKeyT) × Msk) :=
  cocoAggAux h w shapes.enum []

/-- The first-encounter list of instance keys of an image, numbering base for
instance ids. -/
def instKeysOf (shapes : List Shape) : List (String × IKeyT) :=
  shapes.enum.foldl
    (fun ks p => let k := instKey p.1 p.2; if ks.contains k then ks else ks ++ [k]) []

/-- Modelled from the spec: utils.annotations_to_label of the labelme.utils
package, which is not under src/.  Returns the semantic class-id raster and
the instance-id raster of one image: an ordered fold over the shape list
writing into shared rasters, later shapes overwriting earlier ones at
overlapping pixels (painter last-wins, sections 4.4 and 9); each pixel of a
shape mask receives the registry id of the shape label and the per-image
instance id (first-encounter numbering from 1, with 0 reserved for the
background). -/
def shapes_to_label (h w : Nat) (shapes : List Shape) (classes : List (String × Int)) :
    (Nat → Nat → Int) × (Nat → Nat → Nat) :=
  let keys := instKeysOf shapes
  shapes.enum.foldl
    (fun acc p =>
      let msk := shape_to_mask h w p.2.points p.2.shape_type
      let clsId := lookupClass classes p.2.label
      let insId := keys.findIdx (fun k => k == instKey p.1 p.2) + 1
      (fun y x => if msk y x then clsId else acc.1 y x,
       fun y x => if msk y x then insId else acc.2 y x))
    (fun _ _ => 0, fun _ _ => 0)

/-- The exported VOC (and pixel-map) instance raster after the src-level
ignore step ins[cls == -1] = 0 (app.py 2159 and 2039): every pixel whose
class raster value is -1 is zeroed. -/
def vocInsOf (h w : Nat) (shapes : List Shape) (classes : List (String × Int)) :
    Nat → Nat → Nat := fun y x =>
  if (shapes_to_label h w shapes classes).1 y x = -1 then 0
  else (shapes_to_label h w shapes classes).2 y x

/-- A single shape labeled with the ignore pseudo-label. -/
def ignShape : Shape := ⟨"__ignore__", "point", [(1, 1)], none⟩

/-- The cat rectangle of the counterexample scene. -/
def catShape : Shape := ⟨"cat", "rectangle", [(2, 2), (6, 6)], none⟩

/-- An ignore-labeled rectangle overlapping the cat rectangle. -/
def ignRect : Shape := ⟨"__ignore__", "rectangle", [(4, 4), (8, 8)], none⟩

/-- A point shape making the scope not all-rectangle, so the COCO export does
not refuse it. -/
def dotShape : Shape := ⟨"dot", "point", [(0, 0)], none⟩

/-- The counterexample scene of claim C3. -/
def shapesC3 : List Shape := [catShape, ignRect, dotShape]

/-- A reified filesystem effect under the output root: recursive removal of a
subtree (shutil.rmtree), directory creation (os.makedirs), or a file write. -/
inductive FsOp where
  | rmtree (path : List String)
  | mkdir (path : List String)
  | writeFile (path : List String)
deriving DecidableEq

/-- The observable result of one top-level export call. -/
inductive Outcome (α : Type) where
  | refused
  | raised
  | ok (val : α)

/-- One export run: the sequence of filesystem effects it performed, in
order, and its result. -/
structure ExportRun (α : Type) where
  ops : List FsOp
  outcome : Outcome α

/-- The value of an ok outcome. -/
def Outcome.toOpt {α : Type} : Outcome α → Option α
  | .ok v => some v
  | _ => none

/-- One object element of a VOC detection XML document: the label and the
axis-sorted box bounds (app.py 2086-2108). -/
structure VocObj where
  name : String
  xmin : ℚ
  ymin : ℚ
  xmax : ℚ
  ymax : ℚ
deriving DecidableEq

/-- One VOC detection XML document: the image size element and the object
list (app.py 2064-2108). -/
structure VocXml where
  base : String
  height : Nat
  width : Nat
  depth : Nat
  objects : List VocObj
deriving DecidableEq

/-- The per-annotation body of the detection loop (app.py 2086-2108): unpack
the two corner points (python raises on any other arity, modelled by none),
swap each axis so min comes first, and emit the object element. -/
def vocObjOf (s : Shape) : Option VocObj :=
  match s.points with
  | [(x1, y1), (x2, y2)] =>
    some ⟨s.label, min x1 x2, min y1 y2, max x1 x2, max y1 y2⟩
  | _ => none

/-- The object list of one image, aborting at the first malformed shape as
the python loop would. -/
def vocObjsOf : List Shape → Option (List VocObj)
  | [] => some []
  | s :: rest =>
    match vocObjOf s, vocObjsOf rest with
    | some o, some os => some (o :: os)
    | _, _ => none

/-- One image of the detection export: the source jpg is written first; on
success the visualization and the XML document follow (app.py 2050-2120). -/
def detImage (img : Img) : List FsOp × Option VocXml :=
  let jpgOp := FsOp.writeFile ["VOC", "JPEGImages", img.base ++ ".jpg"]
  match vocObjsOf img.shapes with
  | some os =>
    ([jpgOp, FsOp.writeFile ["VOC", "AnnotationsVisualization", img.base ++ ".jpg"],
      FsOp.writeFile ["VOC", "Annotations", img.base ++ ".xml"]],
     some ⟨img.base, img.h, img.w, img.d, os⟩)
  | none => ([jpgOp], none)

/-- The sequential image loop of the detection export, stopping at the first
raising image. -/
def detLoop : List Img → List FsOp × Option (List VocXml)
  | [] => ([], some [])
  | img :: rest =>
    let r := detImage img
    match r.2 with
    | none => (r.1, none)
    | some xml =>
      let r2 := detLoop rest
      (r.1 ++ r2.1,
       match r2.2 with
       | some xs => some (xml :: xs)
       | none => none)

/-- exportDetectionVOC (app.py 2044-2120): create the VOC output directories,
then process every image of the scope. -/
def exportDetectionVOC (imgs : List Img) (classes : List (String × Int)) :
    List FsOp × Option (List VocXml) :=
  let r := detLoop imgs
  ([FsOp.mkdir ["VOC"], FsOp.mkdir ["VOC", "JPEGImages"],
    FsOp.mkdir ["VOC", "Annotations"], FsOp.mkdir ["VOC", "AnnotationsVisualization"]]
    ++ r.1, r.2)

/-- One image of the segmentation export (app.py 2134-2185): writes the jpg,
the class raster (png, npy, visualization) and the instance raster (png, npy,
visualization); the rasters come from annotations_to_label followed by the
ignore zeroing ins[cls == -1] = 0. -/
def segImage (classes : List (String × Int)) (img : Img) :
    List FsOp × (String × (Nat → Nat → Int) × (Nat → Nat → Nat)) :=
  let lbl := shapes_to_label img.h img.w img.shapes classes
  ([FsOp.writeFile ["VOC", "JPEGImages", img.base ++ ".jpg"],
    FsOp.writeFile ["VOC", "SegmentationClassPNG", img.base ++ ".png"],
    FsOp.writeFile ["VOC", "SegmentationClass", img.base ++ ".npy"],
    FsOp.writeFile ["VOC", "SegmentationClassVisualization", img.base ++ ".jpg"],
    FsOp.writeFile ["VOC", "SegmentationObjectPNG", img.base ++ ".png"],
    FsOp.writeFile ["VOC", "SegmentationObject", img.base ++ ".npy"],
    FsOp.writeFile ["VOC", "SegmentationObjectVisualization", img.base ++ ".jpg"]],
   (img.base, lbl.1, vocInsOf img.h img.w img.shapes classes))

/-- exportSegmentationVOC (app.py 2122-2185): create the VOC output
directories, then process every image of the scope. -/
def exportSegmentationVOC (imgs : List Img) (classes : List (String × Int)) :
    List FsOp × List (String × (Nat → Nat → Int) × (Nat → Nat → Nat)) :=
  ([FsOp.mkdir ["VOC"], FsOp.mkdir ["VOC", "JPEGImages"],
    FsOp.mkdir ["VOC", "SegmentationClass"], FsOp.mkdir ["VOC", "SegmentationClassPNG"],
    FsOp.mkdir ["VOC", "SegmentationClassVisualization"],
    FsOp.mkdir ["VOC", "SegmentationObject"], FsOp.mkdir ["VOC", "SegmentationObjectPNG"],
    FsOp.mkdir ["VOC", "SegmentationObjectVisualization"]]
    ++ (imgs.map (fun i => (segImage classes i).1)).flatten,
   imgs.map (fun i => (segImage classes i).2))

/-- The VOC format selection (app.py 2205-2212): all rectangles means bbox
detection; otherwise any polygon means segmentation; otherwise the type tag
stays empty. -/
def vocFmt (annots : List Shape) : String :=
  if annots.all (fun s => s.shape_type == "rectangle") then "bbox_detection"
  else if annots.any (fun s => s.shape_type == "polygon") then "segmenation"
  else ""

/-- Which encoder a VOC export ran and what it produced. -/
inductive VocOut where
  | skipped
  | detRaised
  | detection (xmls : List VocXml)
  | seg (outs : List (String × (Nat → Nat → Int) × (Nat → Nat → Nat)))

/-- onExportVOC (app.py 2188-2227): gather the scope annotations, select the
format, build the registry, remove a pre-existing VOC subtree (pre says
whether one exists), then dispatch on the selected format; an empty format
tag dispatches to neither encoder. -/
def onExportVOC (pre : Bool) (imgs : List Img) : List FsOp × VocOut :=
  let annots := getAllAnns imgs
  let fmt := vocFmt annots
  let classes := buildClasses annots
  let rmOps := if pre then [FsOp.rmtree ["VOC"]] else []
  if fmt = "bbox_detection" then
    let r := exportDetectionVOC imgs classes
    (rmOps ++ r.1,
     match r.2 with
     | some xs => VocOut.detection xs
     | none => VocOut.detRaised)
  else if fmt = "segmenation" then
    let r := exportSegmentationVOC imgs classes
    (rmOps ++ r.1, VocOut.seg r.2)
  else (rmOps, VocOut.skipped)

/-- onExportPixelMap (app.py 1987-2042): refuse outright when every
annotation of the scope is a rectangle (before touching the filesystem);
otherwise build the registry, reset the PixelMap subtree and write one
single-channel class-id image per image of the scope. -/
def onExportPixelMap (pre : Bool) (imgs : List Img) :
    ExportRun (List (String × (Nat → Nat → Int))) :=
  let annots := getAllAnns imgs
  if annots.all (fun s => s.shape_type == "rectangle") then ⟨[], Outcome.refused⟩
  else
    let classes := buildClasses annots
    let rmOps := if pre then [FsOp.rmtree ["PixelMap"]] else []
    ⟨rmOps ++ [FsOp.mkdir ["PixelMap"]]
       ++ imgs.map (fun img => FsOp.writeFile ["PixelMap", img.base ++ ".png"]),
     Outcome.ok (imgs.map (fun img =>
       (img.base, (shapes_to_label img.h img.w img.shapes classes).1)))⟩

/-- One entry of the images section of the COCO document (app.py 2306-2316;
the constant license, url and date fields are omitted). -/
structure CocoImgEntry where
  file_name : String
  height : Nat
  width : Nat
  id : Nat
deriving DecidableEq

/-- One entry of the annotations section of the COCO document (app.py
2361-2371; iscrowd is the constant 0). -/
structure CocoAnn where
  id : Nat
  image_id : Nat
  category_id : Int
  seg : List (List ℚ)
  area : Nat
  bbox : List Nat
deriving DecidableEq

/-- One entry of the categories section of the COCO document (the schema at
app.py 2287-2289: supercategory, id, name). -/
structure CocoCat where
  id : Int
  name : String
deriving DecidableEq

/-- The COCO document (app.py 2270-2290; the constant info and licenses
sections are omitted). -/
structure CocoDoc where
  images : List CocoImgEntry
  anns : List CocoAnn
  categories : List CocoCat
deriving DecidableEq

/-- The flattened coordinate list of a point sequence
(np.asarray(points).flatten().tolist()). -/
def flattenPts (pts : List (ℚ × ℚ)) : List ℚ :=
  pts.foldr (fun p acc => p.1 :: p.2 :: acc) []

/-- The segmentation points of one shape (app.py 2339-2345): a rectangle is
unpacked into its two corners (python raises on any other arity, modelled by
none), axis-sorted and emitted as the explicit 8-number polygon; any other
shape type flattens its point list. -/
def cocoSegPoints (ty : String) (pts : List (ℚ × ℚ)) : Option (List ℚ) :=
  if ty == "rectangle" then
    match pts with
    | [(x1, y1), (x2, y2)] =>
      some [min x1 x2, min y1 y2, max x1 x2, min y1 y2,
            max x1 x2, max y1 y2, min x1 x2, max y1 y2]
    | _ => none
  else some (flattenPts pts)

/-- Insertion-ordered dict update for the segmentations defaultdict (app.py
2319, 2347): append the point list to the entry of the instance. -/
def appendSeg : List ((String × IKeyT) × List (List ℚ)) → (String × IKeyT) →
    List ℚ → List ((String × IKeyT) × List (List ℚ))
  | [], k, ps => [(k, [ps])]
  | p :: rest, k, ps =>
    if p.1 = k then (p.1, p.2 ++ [ps]) :: rest else p :: appendSeg rest k ps

/-- The segmentations dict of one image, aborting at the first malformed
rectangle as the python loop would.  The python source fills the masks dict
and the segmentations dict in the same loop over the shapes; the two
accumulations are independent, so they are modelled as two folds, and an
abort here makes the whole export raise before the masks are consumed. -/
def cocoSegsOf : List (Nat × Shape) → List ((String × IKeyT) × List (List ℚ)) →
    Option (List ((String × IKeyT) × List (List ℚ)))
  | [], sg => some sg
  | (i, s) :: rest, sg =>
    match cocoSegPoints s.shape_type s.points with
    | none => none
    | some ps => cocoSegsOf rest (appendSeg sg (instKey i s) ps)

/-- Dict read of a segmentation list, empty outside every entry (the key is
always present when read). -/
def segsAt (sg : List ((String × IKeyT) × List (List ℚ))) (k : String × IKeyT) :
    List (List ℚ) :=
  match sg.find? (fun p => decide (p.1 = k)) with
  | some p => p.2
  | none => []

/-- The decoded-pixel count of a mask; models the pycocotools semantics of
area(encode(mask)). -/
def maskCount (h w : Nat) (m : Msk) : Nat :=
  (List.range h).foldl (fun acc y => acc + (List.range w).countP (fun x => m y x)) 0

/-- The tight [x, y, width, height] box of the nonzero region of a mask, and
[0, 0, 0, 0] for an empty mask; models the pycocotools semantics of
toBbox(encode(mask)). -/
def maskBbox (h w : Nat) (m : Msk) : List Nat :=
  let cols := (List.range w).filter (fun x => (List.range h).any (fun y => m y x))
  let rows := (List.range h).filter (fun y => (List.range w).any (fun x => m y x))
  match cols.head?, cols.getLast?, rows.head?, rows.getLast? with
  | some x0, some x1, some y0, some y1 => [x0, y0, x1 - x0 + 1, y1 - y0 + 1]
  | _, _, _, _ => [0, 0, 0, 0]

/-- The retained instances of one image: those whose label is in the
class-name list (app.py 2350-2353 and the comprehension at 2373-2378). -/
def retainedOf (cns : List String) (masks : List ((String × IKeyT) × Msk)) :
    List ((String × IKeyT) × Msk) :=
  masks.filter (fun p => cns.contains p.1.1)

/-- One image of the COCO export (app.py 2293-2391): write the jpg, append
the images entry, build the masks and segmentations dicts, emit one
annotations entry per retained instance (ids continue the document counter),
then visualize — python unpacks zip over the retained list there, which
raises when no instance is retained — and dump the document.  An error
carries the operations performed before the raise. -/
def cocoImage (classes : List (String × Int)) (cns : List String)
    (image_id annStart : Nat) (img : Img) :
    Except (List FsOp) (CocoImgEntry × List CocoAnn × List FsOp) :=
  let jpgOp := FsOp.writeFile ["COCO", "JPEGImages", img.base ++ ".jpg"]
  let entry : CocoImgEntry :=
    ⟨"JPEGImages/" ++ img.base ++ ".jpg", img.h, img.w, image_id⟩
  match cocoSegsOf img.shapes.enum [] with
  | none => Except.error [jpgOp]
  | some segs =>
    let masks := cocoAggregate img.h img.w img.shapes
    let retained := retainedOf cns masks
    if retained.isEmpty then Except.error [jpgOp]
    else
      Except.ok (entry,
        retained.enum.map (fun q =>
          ⟨annStart + q.1, image_id, lookupClass classes q.2.1.1,
           segsAt segs q.2.1, maskCount img.h img.w q.2.2,
           maskBbox img.h img.w q.2.2⟩),
        [jpgOp, FsOp.writeFile ["COCO", "Visualization", img.base ++ ".jpg"],
         FsOp.writeFile ["COCO", "annotations.json"]])

/-- The sequential image loop of the COCO export (app.py 2293-2391): images
are processed in list order with image_id the position, the annotation id
counter runs across the whole document, and a raising image aborts the loop
with the operations performed so far. -/
def cocoLoop (classes : List (String × Int)) (cns : List String) :
    List Img → Nat → CocoDoc → List FsOp → ExportRun CocoDoc
  | [], _, doc, ops => ⟨ops, Outcome.ok doc⟩
  | img :: rest, image_id, doc, ops =>
    match cocoImage classes cns image_id doc.anns.length img with
    | Except.error ops2 => ⟨ops ++ ops2, Outcome.raised⟩
    | Except.ok r =>
      cocoLoop classes cns rest (image_id + 1)
        ⟨doc.images ++ [r.1], doc.anns ++ r.2.1, doc.categories⟩ (ops ++ r.2.2)

/-- onExportCOCO (app.py 2230-2391): refuse outright when every annotation of
the scope is a rectangle (before touching the filesystem); otherwise build
the registry, drop its first key (__ignore__) from the class-name list, reset
the COCO subtree (pre says whether one exists), create the output
directories, and run the image loop starting from the document skeleton,
whose categories section is the empty list (app.py 2287-2289) and is never
appended to. -/
def onExportCOCO (pre : Bool) (imgs : List Img) : ExportRun CocoDoc :=
  let annots := getAllAnns imgs
  if annots.all (fun s => s.shape_type == "rectangle") then ⟨[], Outcome.refused⟩
  else
    let classes := buildClasses annots
    let cns := (classes.map Prod.fst).eraseIdx 0
    let ops0 := (if pre then [FsOp.rmtree ["COCO"]] else [])
      ++ [FsOp.mkdir ["COCO"], FsOp.mkdir ["COCO", "JPEGImages"],
          FsOp.mkdir ["COCO", "Visualization"]]
    cocoLoop classes cns imgs 0 ⟨[], [], []⟩ ops0

/-- True when the VOC export ran the detection encoder (whether or not it
finished). -/
def ranDetection : VocOut → Bool
  | VocOut.detection _ => true
  | VocOut.detRaised => true
  | _ => false

/-- True when the VOC export ran the segmentation encoder. -/
def ranSeg : VocOut → Bool
  | VocOut.seg _ => true
  | _ => false

/-- True when the VOC export produced detection XML documents all of which
have an empty object list. -/
def detOutEmpty : VocOut → Bool
  | VocOut.detection xs => xs.all (fun x => x.objects.isEmpty)
  | _ => false

/-- A rectangle shape labeled a. -/
def rectA : Shape := ⟨"a", "rectangle", [(0, 0), (1, 1)], none⟩

/-- A rectangle shape labeled b. -/
def rectB : Shape := ⟨"b", "rectangle", [(1, 1), (2, 2)], none⟩

/-- A polygon shape labeled b. -/
def polyB : Shape := ⟨"b", "polygon", [(0, 0), (3, 0), (0, 3)], none⟩

/-- A circle shape: neither a rectangle nor a polygon. -/
def circShape : Shape := ⟨"c", "circle", [(2, 2), (3, 2)], none⟩

/-- A scope of two rectangles. -/
def imgRR : Img := ⟨4, 4, 3, "rr", [rectA, rectB]⟩

/-- A scope of one rectangle and one polygon. -/
def imgRP : Img := ⟨4, 4, 3, "rp", [rectA, polyB]⟩

/-- A scope of one circle: the ambiguous VOC case. -/
def imgC2 : Img := ⟨4, 4, 3, "c2", [circShape]⟩

/-- A scope with no annotations at all. -/
def imgEmpty : Img := ⟨4, 4, 3, "e", []⟩

/-- A scope whose only annotation is ignore-labeled: nothing is retained. -/
def imgIgn : Img := ⟨4, 4, 3, "g", [ignShape]⟩

/-- The counterexample scene of claim C3 as a 10 by 10 image: a successful
COCO scope with retained instances. -/
def imgC1 : Img := ⟨10, 10, 3, "a", shapesC3⟩

/-- The synthetic 100 by 100 image of the round-trip scenario, with the one
car rectangle. -/
def imgC8 : Img := ⟨100, 100, 3, "img0", [carShape]⟩

theorem addClass_pos (cs : List (String × Int)) (s : Shape)
    (h : (cs.map Prod.fst ++ ["__ignore__", "_background_"]).contains s.label = true) :
    addClass cs s = cs := by
  unfold addClass; rw [if_pos h]

theorem addClass_neg (cs : List (String × Int)) (s : Shape)
    (h : ¬ (cs.map Prod.fst ++ ["__ignore__", "_background_"]).contains s.label = true) :
    addClass cs s = cs ++ [(s.label, (cs.length : Int) - 1)] := by
  unfold addClass; rw [if_neg h]

theorem addClass_append (cs : List (String × Int)) (s : Shape) :
    ∃ t, addClass cs s = cs ++ t := by
  by_cases h : (cs.map Prod.fst ++ ["__ignore__", "_background_"]).contains s.label = true
  · exact ⟨[], by rw [addClass_pos cs s h]; simp⟩
  · exact ⟨[(s.label, (cs.length : Int) - 1)], addClass_neg cs s h⟩

theorem foldl_addClass_append (l : List Shape) :
    ∀ cs : List (String × Int), ∃ t, l.foldl addClass cs = cs ++ t := by
  induction l with
  | nil => intro cs; exact ⟨[], by simp⟩
  | cons a l ih =>
    intro cs
    obtain ⟨e, he⟩ := addClass_append cs a
    obtain ⟨t, ht⟩ := ih (addClass cs a)
    refine ⟨e ++ t, ?_⟩
    rw [List.foldl_cons, ht, he, List.append_assoc]

theorem foldl_addClass_ids (l : List Shape) :
    ∀ cs : List (String × Int),
      (∀ i : Nat, ∀ hi : i < cs.length, (cs[i]).2 = (i : Int) - 1) →
      ∀ i : Nat, ∀ hi : i < (l.foldl addClass cs).length,
        ((l.foldl addClass cs)[i]).2 = (i : Int) - 1 := by
  induction l with
  | nil => intro cs hcs i hi; exact hcs i hi
  | cons a l ih =>
    intro cs hcs
    rw [List.foldl_cons]
    apply ih
    intro i hi
    by_cases h : (cs.map Prod.fst ++ ["__ignore__", "_background_"]).contains a.label = true
    · simp only [addClass_pos cs a h] at hi ⊢
      exact hcs i hi
    · simp only [addClass_neg cs a h] at hi ⊢
      have hi' : i < cs.length + 1 := by simpa using hi
      rcases Nat.lt_or_ge i cs.length with hlt | hge
      · rw [List.getElem_append_left hlt]
        exact hcs i hlt
      · have hieq : i = cs.length := Nat.le_antisymm (Nat.lt_succ_iff.mp hi') hge
        subst hieq
        simp

theorem foldl_addClass_nodup (l : List Shape) :
    ∀ cs : List (String × Int), (cs.map Prod.fst).Nodup →
      ((l.foldl addClass cs).map Prod.fst).Nodup := by
  induction l with
  | nil => intro cs h; exact h
  | cons a l ih =>
    intro cs hcs
    rw [List.foldl_cons]
    apply ih
    by_cases h : (cs.map Prod.fst ++ ["__ignore__", "_background_"]).contains a.label = true
    · rw [addClass_pos cs a h]; exact hcs
    · rw [addClass_neg cs a h]
      have hnm : a.label ∉ cs.map Prod.fst := by
        intro hm
        exact h (by simp [hm])
      simp [List.nodup_append, hcs, hnm]

theorem mem_addClass (cs : List (String × Int)) (a : Shape)
    (hig : "__ignore__" ∈ cs.map Prod.fst) (hbg : "_background_" ∈ cs.map Prod.fst) :
    a.label ∈ (addClass cs a).map Prod.fst := by
  by_cases h : (cs.map Prod.fst ++ ["__ignore__", "_background_"]).contains a.label = true
  · rw [addClass_pos cs a h]
    have hmem : a.label ∈ cs.map Prod.fst ++ ["__ignore__", "_background_"] := by
      simpa using h
    rcases List.mem_append.mp hmem with hm | hm
    · exact hm
    · rcases List.mem_cons.mp hm with he | hm
      · rw [he]; exact hig
      · rcases List.mem_cons.mp hm with he | hm
        · rw [he]; exact hbg
        · exact absurd hm (List.not_mem_nil _)
  · rw [addClass_neg cs a h]
    simp

theorem mem_foldl_addClass (l : List Shape) :
    ∀ cs : List (String × Int), ∀ lbl : String,
      lbl ∈ cs.map Prod.fst → lbl ∈ (l.foldl addClass cs).map Prod.fst := by
  intro cs lbl hm
  obtain ⟨t, ht⟩ := foldl_addClass_append l cs
  rw [ht, List.map_append]
  exact List.mem_append_left _ hm

theorem seed_mem_addClass (cs : List (String × Int)) (a : Shape) (lbl : String)
    (hm : lbl ∈ cs.map Prod.fst) : lbl ∈ (addClass cs a).map Prod.fst := by
  obtain ⟨t, ht⟩ := addClass_append cs a
  rw [ht, List.map_append]
  exact List.mem_append_left _ hm

theorem label_mem_foldl_addClass (l : List Shape) :
    ∀ cs : List (String × Int),
      "__ignore__" ∈ cs.map Prod.fst → "_background_" ∈ cs.map Prod.fst →
      ∀ a ∈ l, a.label ∈ (l.foldl addClass cs).map Prod.fst := by
  induction l with
  | nil => intro cs _ _ a ha; exact absurd ha (List.not_mem_nil _)
  | cons b l ih =>
    intro cs hig hbg a ha
    rw [List.foldl_cons]
    rcases List.mem_cons.mp ha with he | hm
    · subst he
      exact mem_foldl_addClass l _ _ (mem_addClass cs a hig hbg)
    · exact ih (addClass cs b) (seed_mem_addClass cs b _ hig)
        (seed_mem_addClass cs b _ hbg) a hm

/-- Claim C4: the Class Registry build is the fold that starts from the seeds
__ignore__ maps to minus one and _background_ maps to zero, scans the dataset
annotations in order, appends each not-yet-present label with the next id
(entry at position i always carries id i - 1, so appended labels get 1, 2, 3,
and so on), never reassigns or reorders existing entries (the registry of a
scan is a prefix of the registry of any extended scan), registers every
scanned label, keeps labels duplicate-free, and is deterministic: equal
annotation sequences give equal mappings. -/
theorem claim_C4 :
    (∀ as : List Shape, ∃ t, buildClasses as = seedClasses ++ t) ∧
    (∀ as : List Shape, ∀ i : Nat, ∀ hi : i < (buildClasses as).length,
        ((buildClasses as)[i]).2 = (i : Int) - 1) ∧
    (∀ as : List Shape, ((buildClasses as).map Prod.fst).Nodup) ∧
    (∀ as : List Shape, ∀ a ∈ as, a.label ∈ (buildClasses as).map Prod.fst) ∧
    (∀ as bs : List Shape, ∃ t, buildClasses (as ++ bs) = buildClasses as ++ t) ∧
    (∀ as bs : List Shape, as = bs → buildClasses as = buildClasses bs) := by
  refine ⟨?_, ?_, ?_, ?_, ?_, ?_⟩
  · intro as; exact foldl_addClass_append as seedClasses
  · intro as
    apply foldl_addClass_ids
    intro i hi
    have h2 : i < 2 := by simpa [seedClasses] using hi
    interval_cases i <;> norm_num [seedClasses]
  · intro as
    apply foldl_addClass_nodup
    decide
  · intro as a ha
    exact label_mem_foldl_addClass as seedClasses (by decide) (by decide) a ha
  · intro as bs
    unfold buildClasses
    rw [List.foldl_append]
    exact foldl_addClass_append bs _
  · intro as bs h; rw [h]

/-- Witness for claim C4 at a concrete input: one scanned shape labeled car;
its registry entry sits at position 2 with id 1, the label is registered, and
the build is deterministic. -/
theorem claim_C4_witness :
    ((buildClasses [carShape]).get ⟨2, by decide⟩).2 = (2 : Int) - 1 ∧
    carShape.label ∈ (buildClasses [carShape]).map Prod.fst ∧
    buildClasses [carShape] = buildClasses [carShape] :=
  ⟨claim_C4.2.1 [carShape] 2 (by decide),
   claim_C4.2.2.2.1 [carShape] carShape (by decide),
   claim_C4.2.2.2.2.2 [carShape] [carShape] rfl⟩

theorem maskAt_mergeMask (m : List ((String × IKeyT) × Msk)) (k' : String × IKeyT)
    (msk : Msk) (k : String × IKeyT) (y x : Nat) :
    maskAt (mergeMask m k' msk) k y x =
      if k = k' then maskAt m k y x || msk y x else maskAt m k y x := by
  induction m with
  | nil =>
    by_cases h : k = k'
    · subst h; simp [mergeMask, maskAt]
    · simp [mergeMask, maskAt, h, Ne.symm h]
  | cons p rest ih =>
    by_cases hp : p.1 = k'
    · by_cases hk : k = k'
      · subst hk
        simp [mergeMask, maskAt, hp]
      · have hpk : ¬ p.1 = k := fun he => hk (he ▸ hp)
        simp [mergeMask, maskAt, hp, hpk, hk, Ne.symm hk]
    · by_cases hpk : p.1 = k
      · have hk : ¬ k = k' := fun he => hp (he ▸ hpk)
        simp [mergeMask, maskAt, hp, hpk, hk]
      · simp [mergeMask, maskAt, hp, hpk, ih]

theorem maskAt_cocoAggAux (h w : Nat) (l : List (Nat × Shape)) :
    ∀ (m : List ((String × IKeyT) × Msk)) (k : String × IKeyT) (y x : Nat),
      maskAt (cocoAggAux h w l m) k y x =
        (maskAt m k y x ||
          l.any (fun p =>
            decide (instKey p.1 p.2 = k) &&
            shape_to_mask h w p.2.points p.2.shape_type y x)) := by
  induction l with
  | nil => intro m k y x; simp [cocoAggAux]
  | cons q rest ih =>
    intro m k y x
    obtain ⟨i, s⟩ := q
    rw [cocoAggAux]
    rw [ih]
    rw [maskAt_mergeMask]
    by_cases hk : k = instKey i s
    · rw [if_pos hk, List.any_cons]
      have : decide (instKey i s = k) = true := decide_eq_true hk.symm
      rw [this]
      simp [Bool.or_assoc]
    · rw [if_neg hk, List.any_cons]
      have : decide (instKey i s = k) = false := by
        exact decide_eq_false (fun he => hk he.symm)
      rw [this]
      simp

/-- Claim C3 (amended): the per-instance mask handed by onExportCOCO to the
run-length encoder is the plain pixel-wise OR of all constituent shape masks
sharing that instance key, with NO subtraction of __ignore__ pixels (only
whole instances whose label is not retained are dropped later); the
ignore-pixel subtraction applies to the VOC and pixel-map instance raster,
where every pixel whose class raster value is -1 is zeroed by
ins[cls == -1] = 0. -/
theorem claim_C3 :
    (∀ (h w : Nat) (shapes : List Shape) (k : String × IKeyT) (y x : Nat),
        maskAt (cocoAggregate h w shapes) k y x =
          shapes.enum.any (fun p =>
            decide (instKey p.1 p.2 = k) &&
            shape_to_mask h w p.2.points p.2.shape_type y x)) ∧
    (∀ (h w : Nat) (shapes : List Shape) (classes : List (String × Int)) (y x : Nat),
        (shapes_to_label h w shapes classes).1 y x = -1 →
        vocInsOf h w shapes classes y x = 0) := by
  constructor
  · intro h w shapes k y x
    rw [cocoAggregate, maskAt_cocoAggAux]
    simp [maskAt]
  · intro h w shapes classes y x hcls
    simp [vocInsOf, hcls]

/-- Witness for claim C3 at a concrete input: the aggregated mask of the one
instance of a single ignore-labeled point shape matches the OR of its
contributions, and the VOC instance raster is zeroed at the pixel the shape
covers, where the class raster is -1. -/
theorem claim_C3_witness :
    maskAt (cocoAggregate 4 4 [ignShape]) ("__ignore__", IKeyT.fresh 0) 1 1 =
      [ignShape].enum.any (fun p =>
        decide (instKey p.1 p.2 = ("__ignore__", IKeyT.fresh 0)) &&
        shape_to_mask 4 4 p.2.points p.2.shape_type 1 1) ∧
    vocInsOf 4 4 [ignShape] (buildClasses [ignShape]) 1 1 = 0 :=
  ⟨claim_C3.1 4 4 [ignShape] ("__ignore__", IKeyT.fresh 0) 1 1,
   claim_C3.2 4 4 [ignShape] (buildClasses [ignShape]) 1 1 (by decide)⟩

/-- Counterexample to claim C3 as stated: in a 10 by 10 image whose scope the
COCO export accepts, pixel (5,5) is covered by an ignore-labeled shape whose
resolved class id is -1, yet the aggregated COCO mask of the cat instance is
still true there — the encoder does not subtract ignore pixels. -/
theorem claim_C3_counterexample :
    maskAt (cocoAggregate 10 10 shapesC3) ("cat", IKeyT.fresh 0) 5 5 = true ∧
    shape_to_mask 10 10 ignRect.points ignRect.shape_type 5 5 = true ∧
    lookupClass (buildClasses shapesC3) ignRect.label = -1 ∧
    (getAllAnns [⟨10, 10, 3, "i", shapesC3⟩]).all
      (fun s => s.shape_type == "rectangle") = false := by
  refine ⟨?_, ?_, ?_, ?_⟩ <;> decide

/-- Claim C2 (amended): when the VOC scope is ambiguous (neither all
rectangles nor any polygon), the export is refused in the sense that neither
encoder runs and no output directory or file is created — but the
pre-existing VOC subtree, when present, IS removed first; with no
pre-existing subtree nothing at all is created or removed. -/
theorem claim_C2 : ∀ (pre : Bool) (imgs : List Img),
    vocFmt (getAllAnns imgs) = "" →
    onExportVOC pre imgs = ((if pre then [FsOp.rmtree ["VOC"]] else []), VocOut.skipped) := by
  intro pre imgs h
  simp only [onExportVOC, h]
  rw [if_neg (by decide), if_neg (by decide)]

/-- Witness for claim C2 at a concrete input: a one-circle scope with no
pre-existing VOC subtree performs no filesystem operation and runs neither
encoder. -/
theorem claim_C2_witness :
    onExportVOC false [imgC2] = ([], VocOut.skipped) := by
  simpa using claim_C2 false [imgC2] (by decide)

/-- Counterexample to claim C2 as stated: the one-circle scope is ambiguous,
yet with a pre-existing VOC subtree the export removes it (shutil.rmtree runs
before the dispatch at app.py 2221-2227), so the pre-existing VOC output
subtree is not left unchanged. -/
theorem claim_C2_counterexample :
    vocFmt (getAllAnns [imgC2]) = "" ∧
    onExportVOC true [imgC2] = ([FsOp.rmtree ["VOC"]], VocOut.skipped) := by
  exact ⟨by decide, rfl⟩

/-- Claim C5: VOC format selection — if every annotation of the scope is a
rectangle the detection encoder runs; otherwise, if any annotation is a
polygon, the segmentation encoder runs; in particular the scope
[rectangle, rectangle] selects detection and [rectangle, polygon] selects
segmentation. -/
theorem claim_C5 :
    (∀ (pre : Bool) (imgs : List Img),
        (getAllAnns imgs).all (fun s => s.shape_type == "rectangle") = true →
        ranDetection (onExportVOC pre imgs).2 = true) ∧
    (∀ (pre : Bool) (imgs : List Img),
        (getAllAnns imgs).all (fun s => s.shape_type == "rectangle") = false →
        (getAllAnns imgs).any (fun s => s.shape_type == "polygon") = true →
        ranSeg (onExportVOC pre imgs).2 = true) ∧
    ranDetection (onExportVOC false [imgRR]).2 = true ∧
    ranSeg (onExportVOC false [imgRP]).2 = true := by
  refine ⟨?_, ?_, rfl, rfl⟩
  · intro pre imgs h
    have hf : vocFmt (getAllAnns imgs) = "bbox_detection" := by
      simp only [vocFmt, h]; rfl
    simp only [onExportVOC, hf]
    rw [if_pos trivial]
    cases hx : (exportDetectionVOC imgs (buildClasses (getAllAnns imgs))).2
    · simp [hx, ranDetection]
    · simp [hx, ranDetection]
  · intro pre imgs h1 h2
    have hf : vocFmt (getAllAnns imgs) = "segmenation" := by
      simp only [vocFmt, h1, h2]; rfl
    simp only [onExportVOC, hf]
    rw [if_neg (by decide), if_pos trivial]
    rfl

/-- Witness for claim C5 at concrete inputs: the two-rectangle scope selects
detection and the rectangle-plus-polygon scope selects segmentation, also
with a pre-existing VOC subtree. -/
theorem claim_C5_witness :
    ranDetection (onExportVOC true [imgRR]).2 = true ∧
    ranSeg (onExportVOC true [imgRP]).2 = true :=
  ⟨claim_C5.1 true [imgRR] (by decide),
   claim_C5.2.1 true [imgRP] (by decide) (by decide)⟩

/-- Claim C7: rectangle corner normalization is order-insensitive — swapping
the two corner points of a rectangle annotation yields the same axis-sorted
VOC detection object, the same 8-number COCO segmentation polygon, and the
same rasterized mask; in particular corners (50,50)-(10,10) behave as
(10,10)-(50,50). -/
theorem claim_C7 : ∀ (lbl : String) (g : Option Int) (p q : ℚ × ℚ),
    vocObjOf ⟨lbl, "rectangle", [p, q], g⟩ = vocObjOf ⟨lbl, "rectangle", [q, p], g⟩ ∧
    cocoSegPoints "rectangle" [p, q] = cocoSegPoints "rectangle" [q, p] ∧
    (∀ (h w y x : Nat),
        shape_to_mask h w [p, q] "rectangle" y x =
          shape_to_mask h w [q, p] "rectangle" y x) ∧
    vocObjOf ⟨"car", "rectangle", [(50, 50), (10, 10)], none⟩ = vocObjOf carShape := by
  intro lbl g p q
  obtain ⟨x1, y1⟩ := p
  obtain ⟨x2, y2⟩ := q
  refine ⟨?_, ?_, ?_, by decide⟩
  · simp only [vocObjOf]
    rw [min_comm x2 x1, max_comm x2 x1, min_comm y2 y1, max_comm y2 y1]
  · simp only [cocoSegPoints]
    rw [if_pos (show (("rectangle" == "rectangle") = true) from rfl),
        if_pos (show (("rectangle" == "rectangle") = true) from rfl)]
    rw [min_comm x2 x1, max_comm x2 x1, min_comm y2 y1, max_comm y2 y1]
  · intro h w y x
    simp only [shape_to_mask, rectCovers]
    rw [if_pos (show (("rectangle" == "rectangle") = true) from rfl),
        if_pos (show (("rectangle" == "rectangle") = true) from rfl)]
    rw [min_comm x2 x1, max_comm x2 x1, min_comm y2 y1, max_comm y2 y1]

/-- Claim C6: when every annotation of the export scope is a rectangle, both
the COCO export and the pixel-map export refuse outright, performing no
filesystem operation at all. -/
theorem claim_C6 : ∀ (pre pre2 : Bool) (imgs : List Img),
    (getAllAnns imgs).all (fun s => s.shape_type == "rectangle") = true →
    onExportCOCO pre imgs = ⟨[], Outcome.refused⟩ ∧
    onExportPixelMap pre2 imgs = ⟨[], Outcome.refused⟩ := by
  intro pre pre2 imgs h
  constructor
  · simp only [onExportCOCO, h]
    rw [if_pos trivial]
  · simp only [onExportPixelMap, h]
    rw [if_pos trivial]

/-- Witness for claim C6 at a concrete input: the two-rectangle scope is
refused by both exports even with pre-existing output subtrees. -/
theorem claim_C6_witness :
    onExportCOCO true [imgRR] = ⟨[], Outcome.refused⟩ ∧
    onExportPixelMap true [imgRR] = ⟨[], Outcome.refused⟩ :=
  claim_C6 true true [imgRR] (by decide)

theorem getAllAnns_eq_flatten (imgs : List Img) :
    getAllAnns imgs = (imgs.map (fun i => i.shapes)).flatten := by
  suffices haux : ∀ acc : List Shape,
      imgs.foldl (fun a i => a ++ i.shapes) acc =
        acc ++ (imgs.map (fun i => i.shapes)).flatten by
    simpa [getAllAnns] using haux []
  induction imgs with
  | nil => intro acc; simp
  | cons i rest ih => intro acc; simp [ih, List.append_assoc]

theorem detLoop_empty_objects (imgs : List Img) (h : ∀ i ∈ imgs, i.shapes = []) :
    ∃ xs, (detLoop imgs).2 = some xs ∧ xs.all (fun x => x.objects.isEmpty) = true := by
  induction imgs with
  | nil => exact ⟨[], rfl, rfl⟩
  | cons i rest ih =>
    have hi : i.shapes = [] := h i (List.mem_cons_self i rest)
    obtain ⟨xs, hxs, hall⟩ := ih (fun j hj => h j (List.mem_cons_of_mem i hj))
    have hd : (detImage i).2 = some ⟨i.base, i.h, i.w, i.d, []⟩ := by
      unfold detImage
      rw [hi]
      rfl
    refine ⟨⟨i.base, i.h, i.w, i.d, []⟩ :: xs, ?_, ?_⟩
    · simp only [detLoop, hd, hxs]
    · simp [hall]

/-- Claim C10: for a scope with zero annotations, the all-rectangles
predicate holds vacuously, so the COCO and pixel-map exports refuse with no
filesystem operation, while the VOC export selects detection mode and
produces one XML document per image, each with an empty object list. -/
theorem claim_C10 : ∀ (p1 p2 p3 : Bool) (imgs : List Img),
    getAllAnns imgs = [] →
    onExportCOCO p1 imgs = ⟨[], Outcome.refused⟩ ∧
    onExportPixelMap p2 imgs = ⟨[], Outcome.refused⟩ ∧
    detOutEmpty (onExportVOC p3 imgs).2 = true := by
  intro p1 p2 p3 imgs h
  have hall : (getAllAnns imgs).all (fun s => s.shape_type == "rectangle") = true := by
    rw [h]; rfl
  have hshapes : ∀ i ∈ imgs, i.shapes = [] := by
    intro i hi
    have hfl : (imgs.map (fun i => i.shapes)).flatten = [] := by
      rw [← getAllAnns_eq_flatten, h]
    have hmem : i.shapes ∈ imgs.map (fun i => i.shapes) :=
      List.mem_map_of_mem (fun i => i.shapes) hi
    exact (List.flatten_eq_nil_iff.mp hfl) i.shapes hmem
  refine ⟨?_, ?_, ?_⟩
  · simp only [onExportCOCO, hall]
    rw [if_pos trivial]
  · simp only [onExportPixelMap, hall]
    rw [if_pos trivial]
  · have hf : vocFmt (getAllAnns imgs) = "bbox_detection" := by
      simp only [vocFmt, hall]; rfl
    simp only [onExportVOC, hf]
    rw [if_pos trivial]
    obtain ⟨xs, hxs, hxall⟩ := detLoop_empty_objects imgs hshapes
    have hdet : (exportDetectionVOC imgs (buildClasses (getAllAnns imgs))).2 = some xs := by
      simp only [exportDetectionVOC]
      exact hxs
    simp [hdet, detOutEmpty, hxall]

/-- Witness for claim C10 at a concrete input: a one-image scope with no
annotations. -/
theorem claim_C10_witness :
    onExportCOCO true [imgEmpty] = ⟨[], Outcome.refused⟩ ∧
    onExportPixelMap true [imgEmpty] = ⟨[], Outcome.refused⟩ ∧
    detOutEmpty (onExportVOC true [imgEmpty]).2 = true :=
  claim_C10 true true true [imgEmpty] (by decide)

theorem cocoImage_error (classes : List (String × Int)) (cns : List String)
    (image_id annStart : Nat) (img : Img)
    (hret : (retainedOf cns (cocoAggregate img.h img.w img.shapes)).isEmpty = true) :
    cocoImage classes cns image_id annStart img =
      Except.error [FsOp.writeFile ["COCO", "JPEGImages", img.base ++ ".jpg"]] := by
  unfold cocoImage
  cases hs : cocoSegsOf img.shapes.enum [] with
  | none => rfl
  | some segs =>
    simp only [hret]
    rw [if_pos trivial]

/-- Claim C9: during a COCO export, an image none of whose aggregated
instances is retained (its label list does not meet the class-name list, for
example when every annotation is ignore-labeled) makes the per-image step
raise at the visualization unpack of the empty retained list, right after the
jpg write and before the document dump; a scope accepted by the export whose
first image is such an image therefore ends raised instead of completing. -/
theorem claim_C9 :
    (∀ (classes : List (String × Int)) (cns : List String)
        (image_id annStart : Nat) (img : Img),
        img.shapes ≠ [] →
        (retainedOf cns (cocoAggregate img.h img.w img.shapes)).isEmpty = true →
        cocoImage classes cns image_id annStart img =
          Except.error [FsOp.writeFile ["COCO", "JPEGImages", img.base ++ ".jpg"]]) ∧
    (∀ (pre : Bool) (img : Img) (rest : List Img),
        img.shapes ≠ [] →
        (retainedOf (((buildClasses (getAllAnns (img :: rest))).map Prod.fst).eraseIdx 0)
          (cocoAggregate img.h img.w img.shapes)).isEmpty = true →
        (getAllAnns (img :: rest)).all (fun s => s.shape_type == "rectangle") = false →
        (onExportCOCO pre (img :: rest)).outcome = Outcome.raised) := by
  constructor
  · intro classes cns image_id annStart img _ hret
    exact cocoImage_error classes cns image_id annStart img hret
  · intro pre img rest _ hret hall
    simp only [onExportCOCO, hall]
    rw [if_neg (by simp)]
    rw [cocoLoop]
    rw [cocoImage_error _ _ _ _ _ hret]

/-- Witness for claim C9 at a concrete input: a scope whose single image
carries one ignore-labeled point shape; nothing is retained, so the per-image
step errors after the jpg write and the whole export ends raised. -/
theorem claim_C9_witness :
    cocoImage seedClasses ["_background_"] 0 0 imgIgn =
      Except.error [FsOp.writeFile ["COCO", "JPEGImages", imgIgn.base ++ ".jpg"]] ∧
    (onExportCOCO false [imgIgn]).outcome = Outcome.raised :=
  ⟨claim_C9.1 seedClasses ["_background_"] 0 0 imgIgn (by decide) (by decide),
   claim_C9.2 false imgIgn [] (by decide) (by decide) (by decide)⟩

theorem cocoLoop_categories (classes : List (String × Int)) (cns : List String) :
    ∀ (imgs : List Img) (image_id : Nat) (doc : CocoDoc) (ops : List FsOp) (d : CocoDoc),
      (cocoLoop classes cns imgs image_id doc ops).outcome.toOpt = some d →
      d.categories = doc.categories := by
  intro imgs
  induction imgs with
  | nil =>
    intro image_id doc ops d hd
    simp only [cocoLoop, Outcome.toOpt] at hd
    cases hd
    rfl
  | cons img rest ih =>
    intro image_id doc ops d hd
    rw [cocoLoop] at hd
    cases hr : cocoImage classes cns image_id doc.anns.length img with
    | error e =>
      rw [hr] at hd
      simp [Outcome.toOpt] at hd
    | ok r =>
      rw [hr] at hd
      have hd' : (cocoLoop classes cns rest (image_id + 1)
          ⟨doc.images ++ [r.1], doc.anns ++ r.2.1, doc.categories⟩
          (ops ++ r.2.2)).outcome.toOpt = some d := hd
      exact ih (image_id + 1)
        ⟨doc.images ++ [r.1], doc.anns ++ r.2.1, doc.categories⟩ (ops ++ r.2.2) d hd'

/-- Claim C1: the categories section of the COCO document.  The document
skeleton initializes categories to the empty list and the export never
appends to it, so every written annotations.json carries an empty categories
array — it does not enumerate the retained labels of the Class Registry. -/
theorem claim_C1 : ∀ (pre : Bool) (imgs : List Img) (d : CocoDoc),
    (onExportCOCO pre imgs).outcome.toOpt = some d → d.categories = [] := by
  intro pre imgs d hd
  unfold onExportCOCO at hd
  by_cases hall : (getAllAnns imgs).all (fun s => s.shape_type == "rectangle") = true
  · rw [if_pos hall] at hd
    simp [Outcome.toOpt] at hd
  · rw [if_neg hall] at hd
    exact cocoLoop_categories _ _ imgs 0 ⟨[], [], []⟩ _ d hd

/-- Witness for claim C1 at a concrete input: a successful COCO export of a
scope with registered, retained labels still writes an empty categories
array. -/
theorem claim_C1_witness :
    ((onExportCOCO false [imgC1]).outcome.toOpt.map (fun d => d.categories)) = some [] := by
  cases hout : (onExportCOCO false [imgC1]).outcome.toOpt with
  | none => exact absurd hout (by decide)
  | some d =>
    simp only [Option.map_some']
    rw [claim_C1 false [imgC1] d hout]

/-- Counterexample to claim C8 as stated: the synthetic 100 by 100 scope with
the single car rectangle is an all-rectangle scope, so onExportCOCO refuses
it outright (app.py 2249-2250) — no registry, no annotation, no bbox and no
area are ever produced for it. -/
theorem claim_C8_counterexample :
    (getAllAnns [imgC8]).all (fun s => s.shape_type == "rectangle") = true ∧
    (onExportCOCO false [imgC8]).outcome.toOpt = none ∧
    (onExportCOCO false [imgC8]).ops = [] := by
  exact ⟨by decide, rfl, rfl⟩

/-- Claim C8 (amended): for the synthetic 100 by 100 image with the single
car rectangle, the COCO export refuses outright — it performs no filesystem
operation and produces no document, hence no registry, categories, bbox or
area; the registry fold of the exports, applied to that annotation list,
would yield exactly the mapping __ignore__ to -1, _background_ to 0 and car
to 1. -/
theorem claim_C8 :
    (onExportCOCO false [imgC8]).outcome.toOpt = none ∧
    (onExportCOCO false [imgC8]).ops = [] ∧
    buildClasses (getAllAnns [imgC8]) =
      [("__ignore__", -1), ("_background_", 0), ("car", 1)] := by
  exact ⟨rfl, rfl, by decide⟩

